import Mathlib

/-!
Verification of the bookstore API test framework.

Shallow embedding of the repository's TypeScript sources:
* `src/models/book.ts`, `src/models/author.ts` — entity shapes,
* `src/utils/test-data.ts` — `TestDataGenerator`,
* `src/utils/api-client.ts` — `ApiClient`,
* `src/services/books-service.ts`, `src/services/authors-service.ts`,
* `tests/books-api.spec.ts`, `tests/authors-api.spec.ts` — scenario definitions.

JavaScript numbers used by the repo are integers (ids, page counts, status
codes), embedded as `Int`; `Math.random()` results are embedded as rationals
in `[0, 1)` threaded through an explicit environment, and `Date.now()` as a
natural number of milliseconds.
-/

/-- A JSON value, the runtime shape of every request/response body the
framework serializes or parses. Numbers occurring in this repo are integers. -/
inductive JsonValue where
  | null
  | bool (b : Bool)
  | num (n : Int)
  | str (s : String)
  | arr (elems : List JsonValue)
  | obj (fields : List (String × JsonValue))

/-- Field lookup on a JSON object (first binding wins), `none` on non-objects. -/
def JsonValue.getField (v : JsonValue) (name : String) : Option JsonValue :=
  match v with
  | .obj fields => (fields.find? (fun p => p.1 == name)).map Prod.snd
  | _ => none

/-- `Book` from `src/models/book.ts`. -/
structure Book where
  id : Int
  title : String
  description : String
  pageCount : Int
  excerpt : String
  publishDate : String
deriving Repr, DecidableEq

/-- `CreateBookRequest` from `src/models/book.ts`; its fields are identical to
`Book`'s, so it is embedded as the same record type. -/
abbrev CreateBookRequest := Book

/-- `UpdateBookRequest` from `src/models/book.ts`; field-identical to `Book`. -/
abbrev UpdateBookRequest := Book

/-- `Author` from `src/models/author.ts`. -/
structure Author where
  id : Int
  idBook : Int
  firstName : String
  lastName : String
deriving Repr, DecidableEq

/-- `CreateAuthorRequest` from `src/models/author.ts`; field-identical to `Author`. -/
abbrev CreateAuthorRequest := Author

/-- `UpdateAuthorRequest` from `src/models/author.ts`; field-identical to `Author`. -/
abbrev UpdateAuthorRequest := Author

/-- `Partial<CreateBookRequest>`: every field optional, `none` meaning the
property is absent from the returned object literal. -/
structure PartialBook where
  id : Option Int
  title : Option String
  description : Option String
  pageCount : Option Int
  excerpt : Option String
  publishDate : Option String
deriving Repr, DecidableEq

/-- `Partial<CreateAuthorRequest>`: every field optional. -/
structure PartialAuthor where
  id : Option Int
  idBook : Option Int
  firstName : Option String
  lastName : Option String
deriving Repr, DecidableEq

/-- The ambient effects a single `TestDataGenerator` call can observe:
`now` is the `Date.now()` millisecond timestamp, `nowIso` the string
`new Date().toISOString()` evaluates to, and `draw1`, `draw2` the results of
the first and second `Math.random()` call the method makes (each in `[0,1)`
for a real random source; theorems assume exactly that where needed). -/
structure Env where
  now : Nat
  nowIso : String
  draw1 : ℚ
  draw2 : ℚ

/-- `TestDataGenerator.generateBook(id?)` from `src/utils/test-data.ts`:
`id ?? Math.floor(Math.random() * 10000)`, fields interpolating the
`Date.now()` timestamp, `pageCount = Math.floor(Math.random() * 1000) + 100`,
`publishDate = new Date().toISOString()`. -/
def TestDataGenerator.generateBook (env : Env) (id? : Option Int) : CreateBookRequest :=
  { id := id?.getD ⌊env.draw1 * 10000⌋
    title := "Test Book " ++ toString env.now
    description := "Description for test book " ++ toString env.now
    pageCount := ⌊env.draw2 * 1000⌋ + 100
    excerpt := "Excerpt for test book " ++ toString env.now
    publishDate := env.nowIso }

/-- `TestDataGenerator.generateInvalidBook()`: a constant object literal with
empty title, negative page count, and `id`, `excerpt`, `publishDate` absent.
Its body mentions neither `Date.now` nor `Math.random`, so the embedded
function ignores its environment. -/
def TestDataGenerator.generateInvalidBook (_env : Env) : PartialBook :=
  { id := none
    title := some ""
    description := some "Test description"
    pageCount := some (-1)
    excerpt := none
    publishDate := none }

/-- `TestDataGenerator.generateAuthor(id?, idBook?)`:
`id ?? Math.floor(Math.random() * 10000)`,
`idBook ?? Math.floor(Math.random() * 100) + 1`, names interpolating the
`Date.now()` timestamp. -/
def TestDataGenerator.generateAuthor (env : Env) (id? idBook? : Option Int) : CreateAuthorRequest :=
  { id := id?.getD ⌊env.draw1 * 10000⌋
    idBook := idBook?.getD (⌊env.draw2 * 100⌋ + 1)
    firstName := "First" ++ toString env.now
    lastName := "Last" ++ toString env.now }

/-- `TestDataGenerator.generateInvalidAuthor()`: a constant object literal
`\x7b idBook: -1, firstName: '', lastName: '' \x7d` with `id` absent; it
consults no clock and no random source. -/
def TestDataGenerator.generateInvalidAuthor (_env : Env) : PartialAuthor :=
  { id := none
    idBook := some (-1)
    firstName := some ""
    lastName := some "" }

/-- C7: `generateInvalidBook()` returns the partial record omitting `id`,
`excerpt` and `publishDate`, with empty `title` and negative `pageCount`;
`generateInvalidAuthor()` returns exactly the record with `idBook = -1`,
empty `firstName` and `lastName`, and `id` absent — each invalid record is
missing or violating at least one required field of its entity shape. -/
theorem generateInvalid_shape (e : Env) :
    TestDataGenerator.generateInvalidBook e =
      { id := none, title := some "", description := some "Test description",
        pageCount := some (-1), excerpt := none, publishDate := none } ∧
    TestDataGenerator.generateInvalidAuthor e =
      { id := none, idBook := some (-1), firstName := some "", lastName := some "" } ∧
    (TestDataGenerator.generateInvalidBook e).title = some "" ∧
    (TestDataGenerator.generateInvalidBook e).pageCount = some (-1) ∧
    (-1 : Int) < 0 ∧
    (TestDataGenerator.generateInvalidBook e).id = none ∧
    (TestDataGenerator.generateInvalidAuthor e).id = none := by
  refine ⟨rfl, rfl, rfl, rfl, by norm_num, rfl, rfl⟩

/-- C9: `generateInvalidBook` and `generateInvalidAuthor` are constant:
whatever ambient timestamp and random draws two invocations (in any two runs)
observe, the returned records are identical. -/
theorem generateInvalid_constant (e1 e2 : Env) :
    TestDataGenerator.generateInvalidBook e1 = TestDataGenerator.generateInvalidBook e2 ∧
    TestDataGenerator.generateInvalidAuthor e1 = TestDataGenerator.generateInvalidAuthor e2 :=
  ⟨rfl, rfl⟩

/-- An HTTP verb, as used by `ApiClient` in `src/utils/api-client.ts`. -/
inductive HttpMethod where
  | get
  | post
  | put
  | delete
deriving Repr, DecidableEq

/-- The request an `ApiClient` method hands to the underlying Playwright
`APIRequestContext`: verb, full URL, headers, and the JSON-serialized body
(`none` for GET/DELETE, which pass no `data`). -/
structure HttpRequest where
  method : HttpMethod
  url : String
  headers : List (String × String)
  body : Option JsonValue

/-- The header object every `ApiClient` method passes:
`Accept: application/json` and `Content-Type: application/json`. -/
def jsonHeaders : List (String × String) :=
  [("Accept", "application/json"), ("Content-Type", "application/json")]

/-- `ApiClient` from `src/utils/api-client.ts`: holds the `baseURL` assigned by
the constructor. (The other constructor argument, the Playwright
`APIRequestContext`, is the transport that receives the built requests; it is
external to this repository and abstracted away from the request builders.) -/
structure ApiClient where
  baseURL : String

/-- `ApiClient.get(endpoint)`: GET to `baseURL + endpoint` with JSON headers. -/
def ApiClient.get (c : ApiClient) (endpoint : String) : HttpRequest :=
  { method := .get, url := c.baseURL ++ endpoint, headers := jsonHeaders, body := none }

/-- `ApiClient.post(endpoint, data)`: POST with JSON headers and body `data`. -/
def ApiClient.post (c : ApiClient) (endpoint : String) (data : JsonValue) : HttpRequest :=
  { method := .post, url := c.baseURL ++ endpoint, headers := jsonHeaders, body := some data }

/-- `ApiClient.put(endpoint, data)`: PUT with JSON headers and body `data`. -/
def ApiClient.put (c : ApiClient) (endpoint : String) (data : JsonValue) : HttpRequest :=
  { method := .put, url := c.baseURL ++ endpoint, headers := jsonHeaders, body := some data }

/-- `ApiClient.delete(endpoint)`: DELETE with JSON headers and no body. -/
def ApiClient.delete (c : ApiClient) (endpoint : String) : HttpRequest :=
  { method := .delete, url := c.baseURL ++ endpoint, headers := jsonHeaders, body := none }

/-- JSON serialization of a `Book` object literal, in field order. -/
def Book.toJson (b : Book) : JsonValue :=
  .obj [("id", .num b.id), ("title", .str b.title), ("description", .str b.description),
        ("pageCount", .num b.pageCount), ("excerpt", .str b.excerpt),
        ("publishDate", .str b.publishDate)]

/-- JSON serialization of an `Author` object literal, in field order. -/
def Author.toJson (a : Author) : JsonValue :=
  .obj [("id", .num a.id), ("idBook", .num a.idBook), ("firstName", .str a.firstName),
        ("lastName", .str a.lastName)]

/-- `BooksService` from `src/services/books-service.ts`: its constructor wraps
the given base URL in a fresh `ApiClient`. -/
structure BooksService where
  apiClient : ApiClient

/-- The `BooksService` constructor, `new ApiClient(request, baseURL)`. -/
def BooksService.ofBaseURL (baseURL : String) : BooksService :=
  { apiClient := { baseURL := baseURL } }

/-- The `private readonly endpoint` field of `BooksService`, initialized
inline and never reassigned. -/
def booksEndpoint : String := "/api/v1/Books"

/-- `AuthorsService` from `src/services/authors-service.ts`. -/
structure AuthorsService where
  apiClient : ApiClient

/-- The `AuthorsService` constructor, `new ApiClient(request, baseURL)`. -/
def AuthorsService.ofBaseURL (baseURL : String) : AuthorsService :=
  { apiClient := { baseURL := baseURL } }

/-- The `private readonly endpoint` field of `AuthorsService`. -/
def authorsEndpoint : String := "/api/v1/Authors"

/-- The request `BooksService.getAllBooks()` issues: `get(this.endpoint)`. -/
def BooksService.getAllBooksRequest (s : BooksService) : HttpRequest :=
  s.apiClient.get booksEndpoint

/-- The request `BooksService.getBookById(id)` issues. -/
def BooksService.getBookByIdRequest (s : BooksService) (id : Int) : HttpRequest :=
  s.apiClient.get (booksEndpoint ++ "/" ++ toString id)

/-- The request `BooksService.createBook(book)` issues. -/
def BooksService.createBookRequest (s : BooksService) (book : CreateBookRequest) : HttpRequest :=
  s.apiClient.post booksEndpoint book.toJson

/-- The request `BooksService.updateBook(id, book)` issues. -/
def BooksService.updateBookRequest (s : BooksService) (id : Int) (book : UpdateBookRequest) :
    HttpRequest :=
  s.apiClient.put (booksEndpoint ++ "/" ++ toString id) book.toJson

/-- The request `BooksService.deleteBook(id)` issues. -/
def BooksService.deleteBookRequest (s : BooksService) (id : Int) : HttpRequest :=
  s.apiClient.delete (booksEndpoint ++ "/" ++ toString id)

/-- The request `AuthorsService.getAllAuthors()` issues. -/
def AuthorsService.getAllAuthorsRequest (s : AuthorsService) : HttpRequest :=
  s.apiClient.get authorsEndpoint

/-- The request `AuthorsService.getAuthorById(id)` issues. -/
def AuthorsService.getAuthorByIdRequest (s : AuthorsService) (id : Int) : HttpRequest :=
  s.apiClient.get (authorsEndpoint ++ "/" ++ toString id)

/-- The request `AuthorsService.createAuthor(author)` issues. -/
def AuthorsService.createAuthorRequest (s : AuthorsService) (author : CreateAuthorRequest) :
    HttpRequest :=
  s.apiClient.post authorsEndpoint author.toJson

/-- The request `AuthorsService.updateAuthor(id, author)` issues. -/
def AuthorsService.updateAuthorRequest (s : AuthorsService) (id : Int)
    (author : UpdateAuthorRequest) : HttpRequest :=
  s.apiClient.put (authorsEndpoint ++ "/" ++ toString id) author.toJson

/-- The request `AuthorsService.deleteAuthor(id)` issues. -/
def AuthorsService.deleteAuthorRequest (s : AuthorsService) (id : Int) : HttpRequest :=
  s.apiClient.delete (authorsEndpoint ++ "/" ++ toString id)

/-- A Playwright `APIResponse` as the services consume it: its status code and
the result of parsing its raw body as JSON (`none` when the body is not
parseable JSON, in which case `response.json()` rejects). -/
structure ApiResponse where
  status : Int
  jsonBody : Option JsonValue

/-- The runtime failure a service method can propagate: the rejection thrown
by `await response.json()` on an unparseable body. It is the only error the
services' code paths can produce; no other error value exists in the code. -/
inductive JsError where
  | jsonParseException
deriving Repr, DecidableEq

/-- `response.json()`: the parsed value, or a thrown `jsonParseException`. -/
def ApiResponse.json (r : ApiResponse) : Except JsError JsonValue :=
  match r.jsonBody with
  | some v => .ok v
  | none => .error .jsonParseException

/-- The body-handling step shared verbatim by every decoding service method:
`const data = await response.json(); return { response, data: data as T };`.
The TypeScript `as T` cast is erased at runtime, so the parsed value is
returned unchanged, whatever its shape. -/
def jsonAndCast (r : ApiResponse) : Except JsError (ApiResponse × JsonValue) :=
  (r.json).map (fun v => (r, v))

/-- The decoding step of `BooksService.getAllBooks()`. -/
def BooksService.getAllBooksDecode (_s : BooksService) (r : ApiResponse) :
    Except JsError (ApiResponse × JsonValue) := jsonAndCast r

/-- The decoding step of `BooksService.getBookById(id)`. -/
def BooksService.getBookByIdDecode (_s : BooksService) (r : ApiResponse) :
    Except JsError (ApiResponse × JsonValue) := jsonAndCast r

/-- The decoding step of `BooksService.createBook(book)`. -/
def BooksService.createBookDecode (_s : BooksService) (r : ApiResponse) :
    Except JsError (ApiResponse × JsonValue) := jsonAndCast r

/-- The decoding step of `BooksService.updateBook(id, book)`. -/
def BooksService.updateBookDecode (_s : BooksService) (r : ApiResponse) :
    Except JsError (ApiResponse × JsonValue) := jsonAndCast r

/-- The decoding step of `AuthorsService.getAllAuthors()`. -/
def AuthorsService.getAllAuthorsDecode (_s : AuthorsService) (r : ApiResponse) :
    Except JsError (ApiResponse × JsonValue) := jsonAndCast r

/-- The decoding step of `AuthorsService.getAuthorById(id)`. -/
def AuthorsService.getAuthorByIdDecode (_s : AuthorsService) (r : ApiResponse) :
    Except JsError (ApiResponse × JsonValue) := jsonAndCast r

/-- The decoding step of `AuthorsService.createAuthor(author)`. -/
def AuthorsService.createAuthorDecode (_s : AuthorsService) (r : ApiResponse) :
    Except JsError (ApiResponse × JsonValue) := jsonAndCast r

/-- The decoding step of `AuthorsService.updateAuthor(id, author)`. -/
def AuthorsService.updateAuthorDecode (_s : AuthorsService) (r : ApiResponse) :
    Except JsError (ApiResponse × JsonValue) := jsonAndCast r

/-- Whether a JSON value has the `Book` shape (all six required keys present
with the right primitive types) — the shape the `as Book` cast claims. -/
def JsonValue.isBookShape (v : JsonValue) : Bool :=
  (match v.getField "id" with | some (.num _) => true | _ => false) &&
  (match v.getField "title" with | some (.str _) => true | _ => false) &&
  (match v.getField "description" with | some (.str _) => true | _ => false) &&
  (match v.getField "pageCount" with | some (.num _) => true | _ => false) &&
  (match v.getField "excerpt" with | some (.str _) => true | _ => false) &&
  (match v.getField "publishDate" with | some (.str _) => true | _ => false)

/-- `Number.MAX_SAFE_INTEGER`, used by the invalid-id-format edge cases. -/
def maxSafeInteger : Int := 9007199254740991

/-- A `getById` edge-case scenario from the spec files: the id it requests and
the predicate its `expect` places on the response status. -/
structure GetByIdScenario where
  requestedId : Int
  accepted : Int → Bool

/-- `should handle non-existent book ID (Edge Case)`:
`getBookById(999999)`, `expect(response.status()).toBe(404)`. -/
def bookNonExistentIdScenario : GetByIdScenario :=
  { requestedId := 999999, accepted := fun s => s == 404 }

/-- `should handle invalid book ID format (Edge Case)`:
`getBookById(Number.MAX_SAFE_INTEGER)`, `expect(...).toBe(400)`. -/
def bookMaxSafeIntScenario : GetByIdScenario :=
  { requestedId := maxSafeInteger, accepted := fun s => s == 400 }

/-- `should handle negative book ID (Edge Case)`:
`getBookById(-1)`, `expect(...).toBe(404)`. -/
def bookNegativeIdScenario : GetByIdScenario :=
  { requestedId := -1, accepted := fun s => s == 404 }

/-- `should handle non-existent author ID (Edge Case)`:
`getAuthorById(999999)`, `expect(...).toBe(404)`. -/
def authorNonExistentIdScenario : GetByIdScenario :=
  { requestedId := 999999, accepted := fun s => s == 404 }

/-- `should handle invalid author ID format (Edge Case)`:
`getAuthorById(Number.MAX_SAFE_INTEGER)`, `expect(...).toBe(400)`. -/
def authorMaxSafeIntScenario : GetByIdScenario :=
  { requestedId := maxSafeInteger, accepted := fun s => s == 400 }

/-- `should handle negative author ID (Edge Case)`:
`getAuthorById(-1)`, `expect(...).toBe(404)`. -/
def authorNegativeIdScenario : GetByIdScenario :=
  { requestedId := -1, accepted := fun s => s == 404 }

/-- `should handle deleting non-existent book (Edge Case)`:
`deleteBook(999999)`, `expect(response.status()).toBe(200)`. -/
def bookDeleteNonExistentAccepted (s : Int) : Bool := s == 200

/-- `should handle deleting non-existent author (Edge Case)`:
`deleteAuthor(999999)`, `expect(response.status()).toBe(200)`. -/
def authorDeleteNonExistentAccepted (s : Int) : Bool := s == 200

/-- Modelled from the spec: the remote FakeRestAPI service itself is not part
of this repository — only the tests asserting its status codes are — so its
delete semantics are taken from the spec's documented status-code contract
(§6: "200 for all writes (including ... idempotent-success for
delete-on-missing-id)" and §8: "`delete(I)` is idempotent"). The state is the
ids present in each collection; a delete removes the id and returns 200
whether or not it was present. -/
structure ServerState where
  books : List Int
  authors : List Int
deriving Repr, DecidableEq

/-- Modelled from the spec: `DELETE root/\x7bid\x7d` on the Books collection —
removes the id, answers 200 regardless of presence. -/
def ServerState.deleteBook (st : ServerState) (i : Int) : ServerState × Int :=
  ({ st with books := st.books.filter (fun j => j != i) }, 200)

/-- Modelled from the spec: `DELETE root/\x7bid\x7d` on the Authors collection. -/
def ServerState.deleteAuthor (st : ServerState) (i : Int) : ServerState × Int :=
  ({ st with authors := st.authors.filter (fun j => j != i) }, 200)

/-- C1: the `getById` edge-case scenario definitions — for the id absent from
the collection (999999) the accepted status is exactly 404, for
`Number.MAX_SAFE_INTEGER` exactly 400, and for the negative id (-1) exactly
404, in both the Books and the Authors spec files. -/
theorem getById_edge_scenario_statuses (s : Int) :
    bookNonExistentIdScenario.requestedId = 999999 ∧
    (bookNonExistentIdScenario.accepted s = true ↔ s = 404) ∧
    bookMaxSafeIntScenario.requestedId = maxSafeInteger ∧
    (bookMaxSafeIntScenario.accepted s = true ↔ s = 400) ∧
    bookNegativeIdScenario.requestedId = -1 ∧
    (bookNegativeIdScenario.accepted s = true ↔ s = 404) ∧
    authorNonExistentIdScenario.requestedId = 999999 ∧
    (authorNonExistentIdScenario.accepted s = true ↔ s = 404) ∧
    authorMaxSafeIntScenario.requestedId = maxSafeInteger ∧
    (authorMaxSafeIntScenario.accepted s = true ↔ s = 400) ∧
    authorNegativeIdScenario.requestedId = -1 ∧
    (authorNegativeIdScenario.accepted s = true ↔ s = 404) := by
  simp [bookNonExistentIdScenario, bookMaxSafeIntScenario, bookNegativeIdScenario,
    authorNonExistentIdScenario, authorMaxSafeIntScenario, authorNegativeIdScenario]

/-- C2: the spec-modelled delete is idempotent — on any server state and any
id, a first delete answers 200, the repeated delete (the id now absent from
the collection) also answers 200, and that second status is exactly what the
repository's delete-non-existent scenarios accept; likewise for authors. -/
theorem delete_idempotent_200 (st : ServerState) (i : Int) :
    (st.deleteBook i).2 = 200 ∧
    (((st.deleteBook i).1).deleteBook i).2 = 200 ∧
    ((st.deleteBook i).1).books.contains i = false ∧
    bookDeleteNonExistentAccepted (((st.deleteBook i).1).deleteBook i).2 = true ∧
    (st.deleteAuthor i).2 = 200 ∧
    (((st.deleteAuthor i).1).deleteAuthor i).2 = 200 ∧
    ((st.deleteAuthor i).1).authors.contains i = false ∧
    authorDeleteNonExistentAccepted (((st.deleteAuthor i).1).deleteAuthor i).2 = true := by
  refine ⟨rfl, rfl, ?_, rfl, rfl, rfl, ?_, rfl⟩ <;>
    simp [ServerState.deleteBook, ServerState.deleteAuthor, List.contains_eq_any_beq]

/-- C4: every `ApiClient` operation — `get`, `post`, `put`, `delete` — sends
the same fixed header object, carrying both `Accept: application/json` and
`Content-Type: application/json`, for every path and body. -/
theorem apiClient_fixed_json_headers (c : ApiClient) (path : String) (body : JsonValue) :
    (c.get path).headers = jsonHeaders ∧
    (c.post path body).headers = jsonHeaders ∧
    (c.put path body).headers = jsonHeaders ∧
    (c.delete path).headers = jsonHeaders ∧
    jsonHeaders.lookup "Accept" = some "application/json" ∧
    jsonHeaders.lookup "Content-Type" = some "application/json" :=
  ⟨rfl, rfl, rfl, rfl, rfl, rfl⟩

/-- C5: `updateBook(id, book)` (resp. `updateAuthor`) issues a PUT to
`/api/v1/Books/\x7bid\x7d` (resp. Authors) whose body is the serialized input
record unchanged; the body's own `id` field stays whatever the record says,
for every combination of URL id and body — mismatching ids included — with no
reconciliation or rejection. -/
theorem update_request_url_and_body (s : BooksService) (t : AuthorsService) (id : Int)
    (b : UpdateBookRequest) (a : UpdateAuthorRequest) :
    (s.updateBookRequest id b).method = HttpMethod.put ∧
    (s.updateBookRequest id b).url = s.apiClient.baseURL ++ "/api/v1/Books/" ++ toString id ∧
    (s.updateBookRequest id b).body = some b.toJson ∧
    (b.toJson).getField "id" = some (.num b.id) ∧
    (t.updateAuthorRequest id a).method = HttpMethod.put ∧
    (t.updateAuthorRequest id a).url = t.apiClient.baseURL ++ "/api/v1/Authors/" ++ toString id ∧
    (t.updateAuthorRequest id a).body = some a.toJson ∧
    (a.toJson).getField "id" = some (.num a.id) := by
  have hb : (booksEndpoint ++ "/" : String) = "/api/v1/Books/" := rfl
  have ha : (authorsEndpoint ++ "/" : String) = "/api/v1/Authors/" := rfl
  refine ⟨rfl, ?_, rfl, rfl, rfl, ?_, rfl, rfl⟩ <;>
    simp [BooksService.updateBookRequest, AuthorsService.updateAuthorRequest,
      ApiClient.put, ← String.append_assoc, hb, ha]

/-- C10: in the embedding the services are plain immutable values (the source
classes assign their fields only in the constructor), and every operation of a
given service instance targets a URL that is that instance's base URL followed
by its fixed endpoint root — `/api/v1/Books` for `BooksService`,
`/api/v1/Authors` for `AuthorsService` — for all ids and payloads. -/
theorem service_requests_fixed_root (s : BooksService) (t : AuthorsService) (i : Int)
    (b : Book) (a : Author) :
    s.getAllBooksRequest.url = s.apiClient.baseURL ++ "/api/v1/Books" ∧
    (s.getBookByIdRequest i).url = s.apiClient.baseURL ++ "/api/v1/Books/" ++ toString i ∧
    (s.createBookRequest b).url = s.apiClient.baseURL ++ "/api/v1/Books" ∧
    (s.updateBookRequest i b).url = s.apiClient.baseURL ++ "/api/v1/Books/" ++ toString i ∧
    (s.deleteBookRequest i).url = s.apiClient.baseURL ++ "/api/v1/Books/" ++ toString i ∧
    t.getAllAuthorsRequest.url = t.apiClient.baseURL ++ "/api/v1/Authors" ∧
    (t.getAuthorByIdRequest i).url = t.apiClient.baseURL ++ "/api/v1/Authors/" ++ toString i ∧
    (t.createAuthorRequest a).url = t.apiClient.baseURL ++ "/api/v1/Authors" ∧
    (t.updateAuthorRequest i a).url = t.apiClient.baseURL ++ "/api/v1/Authors/" ++ toString i ∧
    (t.deleteAuthorRequest i).url = t.apiClient.baseURL ++ "/api/v1/Authors/" ++ toString i := by
  have hb : (booksEndpoint ++ "/" : String) = "/api/v1/Books/" := rfl
  have ha : (authorsEndpoint ++ "/" : String) = "/api/v1/Authors/" := rfl
  refine ⟨rfl, ?_, rfl, ?_, ?_, rfl, ?_, rfl, ?_, ?_⟩ <;>
    simp [BooksService.getBookByIdRequest, BooksService.updateBookRequest,
      BooksService.deleteBookRequest, AuthorsService.getAuthorByIdRequest,
      AuthorsService.updateAuthorRequest, AuthorsService.deleteAuthorRequest,
      ApiClient.get, ApiClient.put, ApiClient.delete, ← String.append_assoc, hb, ha]

/-- A `BooksService` as the spec files construct it, bound to the live demo
base URL. -/
def sampleBooksService : BooksService :=
  BooksService.ofBaseURL "https://fakerestapi.azurewebsites.net"

/-- A completed HTTP exchange whose body is the JSON number `42` — valid JSON,
but not remotely of the `Book` shape. -/
def nonBookJsonResponse : ApiResponse := { status := 200, jsonBody := some (.num 42) }

/-- C3 counterexample: on a response whose body parses to JSON that is not of
the expected `Book` shape, `getBookById`'s decoding step returns the parsed
value as the typed `data` with no error of any kind — an unchecked cast —
instead of surfacing a `DecodeError`. -/
theorem getBookById_returns_unchecked_cast :
    sampleBooksService.getBookByIdDecode nonBookJsonResponse =
      Except.ok (nonBookJsonResponse, JsonValue.num 42) ∧
    JsonValue.isBookShape (JsonValue.num 42) = false :=
  ⟨rfl, rfl⟩

/-- C3 amended: each body-decoding operation runs `response.json()` and then a
TypeScript `as` cast, which is erased at runtime — a body that is not
parseable as JSON surfaces as the unchecked `jsonParseException` rejection,
and a parseable body of any shape whatsoever is returned unchanged as the
typed `data`; the code has no `DecodeError` value distinct from these. -/
theorem decode_unchecked_cast_behaviour (s : BooksService) (t : AuthorsService)
    (st : Int) (v : JsonValue) :
    s.getAllBooksDecode { status := st, jsonBody := some v } =
      Except.ok ({ status := st, jsonBody := some v }, v) ∧
    s.getAllBooksDecode { status := st, jsonBody := none } =
      Except.error JsError.jsonParseException ∧
    s.getBookByIdDecode { status := st, jsonBody := some v } =
      Except.ok ({ status := st, jsonBody := some v }, v) ∧
    s.getBookByIdDecode { status := st, jsonBody := none } =
      Except.error JsError.jsonParseException ∧
    s.createBookDecode { status := st, jsonBody := some v } =
      Except.ok ({ status := st, jsonBody := some v }, v) ∧
    s.createBookDecode { status := st, jsonBody := none } =
      Except.error JsError.jsonParseException ∧
    s.updateBookDecode { status := st, jsonBody := some v } =
      Except.ok ({ status := st, jsonBody := some v }, v) ∧
    s.updateBookDecode { status := st, jsonBody := none } =
      Except.error JsError.jsonParseException ∧
    t.getAllAuthorsDecode { status := st, jsonBody := some v } =
      Except.ok ({ status := st, jsonBody := some v }, v) ∧
    t.getAllAuthorsDecode { status := st, jsonBody := none } =
      Except.error JsError.jsonParseException ∧
    t.getAuthorByIdDecode { status := st, jsonBody := some v } =
      Except.ok ({ status := st, jsonBody := some v }, v) ∧
    t.getAuthorByIdDecode { status := st, jsonBody := none } =
      Except.error JsError.jsonParseException ∧
    t.createAuthorDecode { status := st, jsonBody := some v } =
      Except.ok ({ status := st, jsonBody := some v }, v) ∧
    t.createAuthorDecode { status := st, jsonBody := none } =
      Except.error JsError.jsonParseException ∧
    t.updateAuthorDecode { status := st, jsonBody := some v } =
      Except.ok ({ status := st, jsonBody := some v }, v) ∧
    t.updateAuthorDecode { status := st, jsonBody := none } =
      Except.error JsError.jsonParseException :=
  ⟨rfl, rfl, rfl, rfl, rfl, rfl, rfl, rfl, rfl, rfl, rfl, rfl, rfl, rfl, rfl, rfl⟩

/-- C8: drawing `Math.random()` values from `[0,1)`, `generateBook()` without
an id argument produces an id in `[0, 9999]` and a pageCount in `[100, 1099]`;
`generateAuthor()` produces an id in `[0, 9999]` and an idBook in `[1, 100]`;
and a supplied id (resp. idBook) argument is returned exactly. -/
theorem generate_ranges (e : Env) (n m : Int)
    (h1 : 0 ≤ e.draw1) (h2 : e.draw1 < 1) (h3 : 0 ≤ e.draw2) (h4 : e.draw2 < 1) :
    0 ≤ (TestDataGenerator.generateBook e none).id ∧
    (TestDataGenerator.generateBook e none).id ≤ 9999 ∧
    100 ≤ (TestDataGenerator.generateBook e none).pageCount ∧
    (TestDataGenerator.generateBook e none).pageCount ≤ 1099 ∧
    (TestDataGenerator.generateBook e (some n)).id = n ∧
    0 ≤ (TestDataGenerator.generateAuthor e none none).id ∧
    (TestDataGenerator.generateAuthor e none none).id ≤ 9999 ∧
    1 ≤ (TestDataGenerator.generateAuthor e none none).idBook ∧
    (TestDataGenerator.generateAuthor e none none).idBook ≤ 100 ∧
    (TestDataGenerator.generateAuthor e (some n) (some m)).id = n ∧
    (TestDataGenerator.generateAuthor e (some n) (some m)).idBook = m := by
  have f1 : (0:ℤ) ≤ ⌊e.draw1 * 10000⌋ := Int.le_floor.mpr (by push_cast; nlinarith)
  have f2 : ⌊e.draw1 * 10000⌋ ≤ 9999 := by
    have : ⌊e.draw1 * 10000⌋ < 10000 := Int.floor_lt.mpr (by push_cast; nlinarith)
    omega
  have f3 : (0:ℤ) ≤ ⌊e.draw2 * 1000⌋ := Int.le_floor.mpr (by push_cast; nlinarith)
  have f4 : ⌊e.draw2 * 1000⌋ ≤ 999 := by
    have : ⌊e.draw2 * 1000⌋ < 1000 := Int.floor_lt.mpr (by push_cast; nlinarith)
    omega
  have f5 : (0:ℤ) ≤ ⌊e.draw2 * 100⌋ := Int.le_floor.mpr (by push_cast; nlinarith)
  have f6 : ⌊e.draw2 * 100⌋ ≤ 99 := by
    have : ⌊e.draw2 * 100⌋ < 100 := Int.floor_lt.mpr (by push_cast; nlinarith)
    omega
  dsimp only [TestDataGenerator.generateBook, TestDataGenerator.generateAuthor, Option.getD]
  refine ⟨f1, f2, by omega, by omega, rfl, f1, f2, by omega, by omega, rfl, rfl⟩

/-- An environment whose random draws are both `0` (a legal `Math.random()`
outcome) at the epoch millisecond. -/
def envZero : Env := { now := 0, nowIso := "1970-01-01T00:00:00.000Z", draw1 := 0, draw2 := 0 }

/-- Witness for `generate_ranges` at the concrete environment `envZero` and
supplied ids `7` and `3`. -/
theorem generate_ranges_witness :
    (0 ≤ envZero.draw1 ∧ envZero.draw1 < 1 ∧ 0 ≤ envZero.draw2 ∧ envZero.draw2 < 1) ∧
    (0 ≤ (TestDataGenerator.generateBook envZero none).id ∧
      (TestDataGenerator.generateBook envZero none).id ≤ 9999 ∧
      100 ≤ (TestDataGenerator.generateBook envZero none).pageCount ∧
      (TestDataGenerator.generateBook envZero none).pageCount ≤ 1099 ∧
      (TestDataGenerator.generateBook envZero (some 7)).id = 7 ∧
      0 ≤ (TestDataGenerator.generateAuthor envZero none none).id ∧
      (TestDataGenerator.generateAuthor envZero none none).id ≤ 9999 ∧
      1 ≤ (TestDataGenerator.generateAuthor envZero none none).idBook ∧
      (TestDataGenerator.generateAuthor envZero none none).idBook ≤ 100 ∧
      (TestDataGenerator.generateAuthor envZero (some 7) (some 3)).id = 7 ∧
      (TestDataGenerator.generateAuthor envZero (some 7) (some 3)).idBook = 3) :=
  ⟨⟨le_refl 0, by norm_num [envZero], le_refl 0, by norm_num [envZero]⟩,
   generate_ranges envZero 7 3 (le_refl 0) (by norm_num [envZero])
     (le_refl 0) (by norm_num [envZero])⟩

/-- `Nat.toDigitsCore` with enough fuel prepends the base-10 digit characters
of `n`, most significant first, to the accumulator. -/
theorem toDigitsCore_eq_digits :
    ∀ (f n : Nat) (acc : List Char), 0 < n → n ≤ f →
      Nat.toDigitsCore 10 f n acc =
        ((Nat.digits 10 n).map Nat.digitChar).reverse ++ acc := by
  intro f
  induction f with
  | zero => intro n acc hn hf; omega
  | succ f ih =>
    intro n acc hn hf
    rw [Nat.toDigitsCore]
    by_cases h : n / 10 = 0
    · simp only [h, if_true, reduceIte]
      rw [Nat.digits_def' (by norm_num : (1:ℕ) < 10) hn, h]
      simp
    · simp only [h, if_false, reduceIte]
      have hn' : 0 < n / 10 := Nat.pos_of_ne_zero h
      have hf' : n / 10 ≤ f := by
        have := Nat.div_lt_self hn (by norm_num : 1 < 10)
        omega
      rw [ih (n / 10) (Nat.digitChar (n % 10) :: acc) hn' hf']
      rw [Nat.digits_def' (by norm_num : (1:ℕ) < 10) hn]
      simp

/-- For positive `n`, `Nat.repr n` is the decimal digit characters of `n`. -/
theorem repr_eq_digitChars (n : Nat) (hn : 0 < n) :
    Nat.repr n = (((Nat.digits 10 n).map Nat.digitChar).reverse).asString := by
  show (Nat.toDigits 10 n).asString = _
  rw [show Nat.toDigits 10 n = Nat.toDigitsCore 10 (n + 1) n [] from rfl]
  rw [toDigitsCore_eq_digits (n + 1) n [] hn (by omega)]
  simp

/-- `Nat.digitChar` is injective on digits below 10. -/
theorem digitChar_injOn :
    ∀ a, a < 10 → ∀ b, b < 10 → Nat.digitChar a = Nat.digitChar b → a = b := by
  decide

/-- Mapping `Nat.digitChar` over lists of digits below 10 is injective. -/
theorem map_digitChar_inj :
    ∀ (l1 l2 : List Nat), (∀ d ∈ l1, d < 10) → (∀ d ∈ l2, d < 10) →
      l1.map Nat.digitChar = l2.map Nat.digitChar → l1 = l2 := by
  intro l1
  induction l1 with
  | nil => intro l2 _ _ h; cases l2 <;> simp_all
  | cons a as ih =>
    intro l2 h1 h2 h
    cases l2 with
    | nil => simp_all
    | cons b bs =>
      simp only [List.map_cons, List.cons.injEq] at h
      have hab : a = b :=
        digitChar_injOn a (h1 a (by simp)) b (h2 b (by simp)) h.1
      have htl : as = bs :=
        ih bs (fun d hd => h1 d (by simp [hd])) (fun d hd => h2 d (by simp [hd])) h.2
      simp [hab, htl]

/-- Decimal string representation is injective on `Nat`. -/
theorem nat_repr_inj : ∀ a b : Nat, Nat.repr a = Nat.repr b → a = b := by
  have key : ∀ b : Nat, 0 < b → Nat.repr b = "0" → False := by
    intro b hb h
    rw [repr_eq_digitChars b hb] at h
    have hdata := congrArg String.data h
    simp only [List.asString] at hdata
    have hrev : ((Nat.digits 10 b).map Nat.digitChar).reverse = ['0'] := hdata
    have hmap : (Nat.digits 10 b).map Nat.digitChar = ['0'] := by
      have := congrArg List.reverse hrev
      simpa using this
    have hdig : Nat.digits 10 b = [0] := by
      apply map_digitChar_inj
      · exact fun d hd => Nat.digits_lt_base (by norm_num) hd
      · intro d hd; simp at hd; omega
      · simpa using hmap
    have := Nat.ofDigits_digits 10 b
    rw [hdig] at this
    simp [Nat.ofDigits] at this
    omega
  intro a b h
  rcases Nat.eq_zero_or_pos a with ha | ha <;> rcases Nat.eq_zero_or_pos b with hb | hb
  · omega
  · subst ha; exact absurd h.symm (fun hh => key b hb hh)
  · subst hb; exact absurd h (fun hh => key a ha hh)
  · rw [repr_eq_digitChars a ha, repr_eq_digitChars b hb] at h
    have hdata := congrArg String.data h
    simp only [List.asString] at hdata
    have hmap : (Nat.digits 10 a).map Nat.digitChar = (Nat.digits 10 b).map Nat.digitChar := by
      have := congrArg List.reverse hdata
      simpa using this
    have hdig : Nat.digits 10 a = Nat.digits 10 b := by
      apply map_digitChar_inj
      · exact fun d hd => Nat.digits_lt_base (by norm_num) hd
      · exact fun d hd => Nat.digits_lt_base (by norm_num) hd
      · exact hmap
    have h1 := Nat.ofDigits_digits 10 a
    have h2 := Nat.ofDigits_digits 10 b
    rw [hdig] at h1
    omega

/-- Appending decimal representations to a common front is injective. -/
theorem append_repr_inj (p : String) (a b : Nat)
    (h : p ++ Nat.repr a = p ++ Nat.repr b) : a = b := by
  have hd := congrArg String.data h
  simp only [String.data_append] at hd
  exact nat_repr_inj a b (String.ext (List.append_cancel_left hd))

/-- An environment at the epoch millisecond with both draws `0`. -/
def envSameMs : Env := { now := 0, nowIso := "1970-01-01T00:00:00.000Z", draw1 := 0, draw2 := 0 }

/-- C6 counterexample: two distinct calls in the same process — here
`generateBook(1)` and `generateBook(2)` issued within the same `Date.now()`
millisecond — return records that differ (their ids differ) yet whose title,
description and excerpt are pairwise identical; likewise `generateAuthor`'s
firstName and lastName. `Date.now()` has millisecond resolution, so nothing in
the code guarantees distinct timestamps, hence uniqueness, across calls. -/
theorem generate_same_millisecond_collision :
    ((TestDataGenerator.generateBook envSameMs (some 1)).id ==
      (TestDataGenerator.generateBook envSameMs (some 2)).id) = false ∧
    (TestDataGenerator.generateBook envSameMs (some 1)).title =
      (TestDataGenerator.generateBook envSameMs (some 2)).title ∧
    (TestDataGenerator.generateBook envSameMs (some 1)).description =
      (TestDataGenerator.generateBook envSameMs (some 2)).description ∧
    (TestDataGenerator.generateBook envSameMs (some 1)).excerpt =
      (TestDataGenerator.generateBook envSameMs (some 2)).excerpt ∧
    ((TestDataGenerator.generateAuthor envSameMs (some 1) (some 1)).id ==
      (TestDataGenerator.generateAuthor envSameMs (some 2) (some 2)).id) = false ∧
    (TestDataGenerator.generateAuthor envSameMs (some 1) (some 1)).firstName =
      (TestDataGenerator.generateAuthor envSameMs (some 2) (some 2)).firstName ∧
    (TestDataGenerator.generateAuthor envSameMs (some 1) (some 1)).lastName =
      (TestDataGenerator.generateAuthor envSameMs (some 2) (some 2)).lastName :=
  ⟨rfl, rfl, rfl, rfl, rfl, rfl, rfl⟩

/-- C6 amended: the non-id fields are derived deterministically from the
`Date.now()` timestamp, so two calls that observe distinct timestamps return
differing title, description and excerpt (resp. firstName and lastName);
calls in the same millisecond are not distinguished. -/
theorem generate_distinct_timestamps_distinct_fields (e1 e2 : Env)
    (i1 i2 j1 j2 : Option Int) (h : e1.now ≠ e2.now) :
    (TestDataGenerator.generateBook e1 i1).title ≠
      (TestDataGenerator.generateBook e2 i2).title ∧
    (TestDataGenerator.generateBook e1 i1).description ≠
      (TestDataGenerator.generateBook e2 i2).description ∧
    (TestDataGenerator.generateBook e1 i1).excerpt ≠
      (TestDataGenerator.generateBook e2 i2).excerpt ∧
    (TestDataGenerator.generateAuthor e1 i1 j1).firstName ≠
      (TestDataGenerator.generateAuthor e2 i2 j2).firstName ∧
    (TestDataGenerator.generateAuthor e1 i1 j1).lastName ≠
      (TestDataGenerator.generateAuthor e2 i2 j2).lastName := by
  have key : ∀ p : String, p ++ toString e1.now ≠ p ++ toString e2.now := by
    intro p hcontra
    exact h (append_repr_inj p e1.now e2.now hcontra)
  exact ⟨key _, key _, key _, key _, key _⟩

/-- An environment one millisecond after `envSameMs`. -/
def envNextMs : Env := { now := 1, nowIso := "1970-01-01T00:00:00.001Z", draw1 := 0, draw2 := 0 }

/-- Witness for `generate_distinct_timestamps_distinct_fields` at the concrete
environments `envSameMs` (timestamp 0) and `envNextMs` (timestamp 1). -/
theorem generate_distinct_timestamps_witness :
    envSameMs.now ≠ envNextMs.now ∧
    ((TestDataGenerator.generateBook envSameMs none).title ≠
        (TestDataGenerator.generateBook envNextMs none).title ∧
      (TestDataGenerator.generateBook envSameMs none).description ≠
        (TestDataGenerator.generateBook envNextMs none).description ∧
      (TestDataGenerator.generateBook envSameMs none).excerpt ≠
        (TestDataGenerator.generateBook envNextMs none).excerpt ∧
      (TestDataGenerator.generateAuthor envSameMs none none).firstName ≠
        (TestDataGenerator.generateAuthor envNextMs none none).firstName ∧
      (TestDataGenerator.generateAuthor envSameMs none none).lastName ≠
        (TestDataGenerator.generateAuthor envNextMs none none).lastName) :=
  ⟨by decide,
   generate_distinct_timestamps_distinct_fields envSameMs envNextMs none none none none
     (by decide)⟩
